import Mathlib

/-!
# Verification of the unified LLM API client core

Shallow embedding of the orchestration core of the `pmc-estimator`
repository (directory `system-google-sheets-addon/config/config-api/`):

* `credentials.py`    — `CredentialsManager.get`
* `usage_tracker.py`  — `UsageTracker.log_request / get_usage_summary /
                         check_cost_limit / check_requests_per_agent_per_day /
                         _load_logs`
* `providers/provider_factory.py` — `ProviderFactory.create`
* `providers/claude_provider.py`, `chatgpt_provider.py`, `grok_provider.py`
  — `calculate_cost` and the shape of `call`
* `api_client.py`     — `APIClient.call` and `APIClient._call_with_retries`

Modelling conventions:

* Python numbers (all `float` in the source) are embedded as `ℚ`; Python
  `round(x, n)` (banker's rounding) is `pyRoundTo n`.
* Python exceptions are the inductive `PyErr`.  The source raises plain
  `ValueError` for configuration, credential and limit problems; the spec's
  taxonomy names (ConfigError / CredentialError / LimitExceeded) are kept as
  separate constructors, all of which answer `isValueError = true`, because
  the orchestrator's control flow (`except ValueError`) discriminates only
  on the Python class.
* Network traffic is an oracle function `Env.oracle : String → ℕ → …` giving
  the outcome of the n-th upstream invocation of a provider inside one
  `APIClient.call`; everything else is translated from the source.
* The usage-log file is the inductive `LogFile`: `missing` (file absent),
  `invalid` (unreadable / bad JSON — both collapse to `[]` in
  `_load_logs`), or `valid entries`.
* Timestamps are abstracted to a calendar-day number `ℕ` (the only use the
  source makes of them is `datetime.fromisoformat(t).date() == today`).
-/

/-- Floor of a rational, written with integer division so that the kernel
can evaluate it on concrete inputs. -/
def ratFloor (q : ℚ) : ℤ := q.num / q.den

/-- Banker's rounding to an integer, as Python's built-in `round` on exact
values: round half to even. -/
def pyRound (q : ℚ) : ℤ :=
  let f := ratFloor q
  let r := q - f
  if r < 1/2 then f
  else if 1/2 < r then f + 1
  else if 2 ∣ f then f else f + 1

/-- Python's `round(q, n)`: round to `n` decimal digits. -/
def pyRoundTo (n : ℕ) (q : ℚ) : ℚ := (pyRound (q * 10 ^ n) : ℚ) / 10 ^ n

/-- Python exception values, tagged by the class the orchestrator's
`except` clauses discriminate on.  `valueError`, `configError`,
`credentialError` and `limitExceeded` are all `ValueError` in the source;
the finer constructors record which component raised. -/
inductive PyErr where
  | valueError (msg : String)
  | configError (msg : String)
  | credentialError (msg : String)
  | limitExceeded (msg : String)
  | importError (msg : String)
  | notImplementedError (msg : String)
  | otherError (msg : String)
  | allProvidersFailed (msg : String) (lastError : PyErr)
deriving DecidableEq, Repr

/-- Which embedded errors the source's `except ValueError` clause catches. -/
def PyErr.isValueError : PyErr → Bool
  | .valueError _ => true
  | .configError _ => true
  | .credentialError _ => true
  | .limitExceeded _ => true
  | _ => false

def PyErr.isNotImplemented : PyErr → Bool
  | .notImplementedError _ => true
  | _ => false

/-- `str(e)` for an embedded exception. -/
def PyErr.msg : PyErr → String
  | .valueError m => m
  | .configError m => m
  | .credentialError m => m
  | .limitExceeded m => m
  | .importError m => m
  | .notImplementedError m => m
  | .otherError m => m
  | .allProvidersFailed m _ => m

instance exceptDecEq {ε α : Type} [DecidableEq ε] [DecidableEq α] :
    DecidableEq (Except ε α)
  | .error e, .error e' =>
    if h : e = e' then .isTrue (by rw [h]) else .isFalse (by simp [h])
  | .error _, .ok _ => .isFalse (by simp)
  | .ok _, .error _ => .isFalse (by simp)
  | .ok a, .ok b =>
    if h : a = b then .isTrue (by rw [h]) else .isFalse (by simp [h])

/-- `billing` sub-document of a provider config.  The fields are optional
because `grok_provider.py` reads them with `.get(..., default)` while the
other providers index them directly (KeyError when absent). -/
structure Billing where
  input_per_mtok : Option ℚ
  output_per_mtok : Option ℚ
deriving DecidableEq, Repr

/-- `ProviderConfig` entry of `agency-config.json`.  `enabled` models the
truthiness of `config.get("enabled")` (absent = false). -/
structure ProviderConfig where
  model : String
  enabled : Bool
  max_tokens : Option ℕ
  api_key_env_var : Option String
  billing : Option Billing
deriving DecidableEq, Repr

structure RateLimit where
  requests_per_day : Option ℕ
deriving DecidableEq, Repr

structure AgentConfig where
  provider : Option String
  fallback_providers : List String
  rate_limit : Option RateLimit
deriving DecidableEq, Repr

structure CostTracking where
  hard_limit_dollars : Option ℚ
deriving DecidableEq, Repr

structure UsageControl where
  cost_tracking : Option CostTracking
deriving DecidableEq, Repr

/-- `api` section; `APIClient._call_with_retries` reads
`self.config["api"]` with a mandatory key, so the section itself is not
optional. -/
structure ApiSection where
  retry_backoff_base : Option ℚ
deriving DecidableEq, Repr

/-- The `agency-config.json` document (the parts this core reads). -/
structure AgencyConfig where
  providers : List (String × ProviderConfig)
  agents : List (String × AgentConfig)
  usage_control : Option UsageControl
  api : ApiSection
deriving DecidableEq, Repr

/-- Python `dict` lookup on the JSON maps (insertion-ordered association
lists). -/
def lookupA {β : Type} : List (String × β) → String → Option β
  | [], _ => none
  | (k, v) :: rest, key => if k = key then some v else lookupA rest key

/-- `APIResponse` dataclass of `base_provider.py`. -/
structure APIResponse where
  content : String
  model : String
  input_tokens : ℕ
  output_tokens : ℕ
  cost_usd : ℚ
  provider : String
deriving DecidableEq, Repr

inductive Status where
  | success
  | failure
deriving DecidableEq, Repr

/-- The two metadata dict shapes `APIClient.call` attaches to a log entry:
`{"max_tokens": …}` on success, `{"error": str(e)}` on terminal failure. -/
inductive Metadata where
  | maxTokens (v : Option ℕ)
  | errMsg (s : String)
deriving DecidableEq, Repr

/-- `UsageLogEntry` record written by `UsageTracker.log_request`. -/
structure Entry where
  timestamp : ℕ
  agent : String
  provider : String
  tokens_in : ℕ
  tokens_out : ℕ
  total_tokens : ℕ
  cost_usd : ℚ
  status : Status
  metadata : Option Metadata
deriving DecidableEq, Repr

/-- State of the file at `usage_control.track_file`.  `invalid` covers both
the `json.JSONDecodeError` and the `IOError` branch of `_load_logs`. -/
inductive LogFile where
  | missing
  | invalid
  | valid (entries : List Entry)
deriving DecidableEq, Repr

namespace UsageTracker

/-- `UsageTracker._load_logs` (usage_tracker.py lines 198-207). -/
def load_logs : LogFile → List Entry
  | .missing => []
  | .invalid => []
  | .valid entries => entries

/-- The entry value built at the top of `UsageTracker.log_request`
(usage_tracker.py lines 59-71). -/
def mkLogEntry (today : ℕ) (agent_name provider : String)
    (tokens_in tokens_out : ℕ) (cost : ℚ) (status : Status)
    (metadata : Option Metadata) : Entry :=
  { timestamp := today
    agent := agent_name
    provider := provider
    tokens_in := tokens_in
    tokens_out := tokens_out
    total_tokens := tokens_in + tokens_out
    cost_usd := pyRoundTo 4 cost
    status := status
    metadata := metadata }

/-- `UsageTracker.log_request` (usage_tracker.py lines 37-79): load the
whole log, append one entry, write the whole log back. -/
def log_request (today : ℕ) (agent_name provider : String)
    (tokens_in tokens_out : ℕ) (cost : ℚ) (status : Status)
    (metadata : Option Metadata) (file : LogFile) : LogFile :=
  .valid (load_logs file ++
    [mkLogEntry today agent_name provider tokens_in tokens_out cost status metadata])

structure AggStats where
  calls : ℕ
  tokens : ℕ
  cost : ℚ
deriving DecidableEq, Repr

/-- Return shape of `UsageTracker.get_usage_summary`. -/
structure Summary where
  total_calls : ℕ
  total_tokens : ℕ
  total_cost : ℚ
  by_provider : List (String × AggStats)
  by_agent : List (String × AggStats)
deriving DecidableEq, Repr

/-- In-place update of the per-provider / per-agent dicts built by the
summary loop (Python dicts keep insertion order). -/
def updateStats (k : String) (tokens : ℕ) (cost : ℚ) :
    List (String × AggStats) → List (String × AggStats)
  | [] => [(k, { calls := 1, tokens := tokens, cost := cost })]
  | (k', s) :: rest =>
    if k' = k then
      (k', { calls := s.calls + 1, tokens := s.tokens + tokens, cost := s.cost + cost }) :: rest
    else
      (k', s) :: updateStats k tokens cost rest

/-- Loop body of `get_usage_summary` (usage_tracker.py lines 98-126):
failed entries are skipped for token/cost aggregation. -/
def summaryStep (summary : Summary) (log : Entry) : Summary :=
  if log.status ≠ Status.success then summary
  else
    { total_calls := summary.total_calls
      total_tokens := summary.total_tokens + log.total_tokens
      total_cost := summary.total_cost + log.cost_usd
      by_provider := updateStats log.provider log.total_tokens log.cost_usd summary.by_provider
      by_agent := updateStats log.agent log.total_tokens log.cost_usd summary.by_agent }

/-- `UsageTracker.get_usage_summary` (usage_tracker.py lines 81-128);
`total_calls` counts every entry, success or not. -/
def get_usage_summary (file : LogFile) : Summary :=
  let logs := load_logs file
  logs.foldl summaryStep
    { total_calls := logs.length
      total_tokens := 0
      total_cost := 0
      by_provider := []
      by_agent := [] }

/-- `UsageTracker.check_cost_limit` (usage_tracker.py lines 160-171). -/
def check_cost_limit (cfg : AgencyConfig) (file : LogFile) : Bool × ℚ × ℚ :=
  let limit := ((cfg.usage_control.bind (·.cost_tracking)).bind
    (·.hard_limit_dollars)).getD 100
  let current := (get_usage_summary file).total_cost
  (decide (current < limit), current, limit)

/-- `UsageTracker.check_requests_per_agent_per_day`
(usage_tracker.py lines 173-196): counts every entry of the agent dated
today, success and failure alike. -/
def check_requests_per_agent_per_day (cfg : AgencyConfig) (file : LogFile)
    (today : ℕ) (agent_name : String) : Bool × ℕ × ℕ :=
  let limit := (((lookupA cfg.agents agent_name).bind (·.rate_limit)).bind
    (·.requests_per_day)).getD 100
  let today_requests := (load_logs file).countP
    (fun log => decide (log.timestamp = today ∧ log.agent = agent_name))
  (decide (today_requests < limit), today_requests, limit)

end UsageTracker

/-- ASCII lowercasing of one character, as Python's `str.lower` acts on
the ASCII provider names this system uses. -/
def lowerChar (c : Char) : Char :=
  if 'A' ≤ c ∧ c ≤ 'Z' then Char.ofNat (c.toNat + 32) else c

/-- `provider_name.lower()` (ASCII range). -/
def pyLower (s : String) : String := ⟨s.data.map lowerChar⟩

namespace CredentialsManager

/-- `CredentialsManager.get` (credentials.py lines 28-71), with the
process environment passed explicitly.  The per-process cache is omitted:
under a fixed environment it is observationally the identity.  Python's
`if not x` treats both a missing value and the empty string as falsy. -/
def get (cfg : AgencyConfig) (envVars : String → Option String)
    (provider_name : String) : Except PyErr String :=
  let lower := pyLower provider_name
  match lookupA cfg.providers lower with
  | none => .error (.credentialError s!"Provider {provider_name} not found in config")
  | some pcfg =>
    match pcfg.api_key_env_var with
    | none => .error (.credentialError s!"No api_key_env_var configured for provider {provider_name}")
    | some env_var =>
      if env_var = "" then
        .error (.credentialError s!"No api_key_env_var configured for provider {provider_name}")
      else
        match envVars env_var with
        | none => .error (.credentialError s!"API key for {provider_name} not found. Set environment variable: {env_var}")
        | some api_key =>
          if api_key = "" then
            .error (.credentialError s!"API key for {provider_name} not found. Set environment variable: {env_var}")
          else
            .ok api_key

end CredentialsManager

/-- The three provider classes registered in `ProviderFactory.PROVIDERS`. -/
inductive ProviderKind where
  | claude
  | chatgpt
  | grok
deriving DecidableEq, Repr

/-- Facts about the process that provider constructors depend on, plus the
network oracle: `oracle p n` is the upstream outcome of the n-th invocation
of provider `p` within one `APIClient.call`. -/
structure Usage where
  content : String
  input_tokens : ℕ
  output_tokens : ℕ
deriving DecidableEq, Repr

structure Env where
  today : ℕ
  envVars : String → Option String
  oracle : String → ℕ → Except PyErr Usage
  openaiInstalled : Bool
  xaiGrokInstalled : Bool

def notEnabledMsg (provider_name : String) : String :=
  s!"Provider {provider_name} is not enabled in agency-config.json"

def unknownProviderMsg (provider_name : String) : String :=
  s!"Unknown provider: {provider_name}. Available providers: claude, chatgpt, grok"

namespace ProviderFactory

/-- `ProviderFactory.create` (provider_factory.py lines 24-55) together
with the constructor side effects of the chosen class: `ChatGPTProvider`
and `GrokProvider` lazily import their client library inside `__init__`
and raise `ImportError` when it is absent (`ClaudeProvider` imports
`anthropic` at module load, which must already have succeeded for the
factory to exist). -/
def create (env : Env) (provider_name : String) (config : ProviderConfig) :
    Except PyErr ProviderKind :=
  let lower := pyLower provider_name
  if lower = "claude" ∨ lower = "chatgpt" ∨ lower = "grok" then
    if ¬ config.enabled then
      .error (.configError (notEnabledMsg provider_name))
    else if lower = "claude" then
      .ok .claude
    else if lower = "chatgpt" then
      if env.openaiInstalled then .ok .chatgpt
      else .error (.importError "OpenAI library not installed.")
    else
      if env.xaiGrokInstalled then .ok .grok
      else .error (.importError "Grok library not installed.")
  else
    .error (.configError (unknownProviderMsg provider_name))

end ProviderFactory

namespace ClaudeProvider

/-- `ClaudeProvider.calculate_cost` (claude_provider.py lines 51-70); the
direct `billing[...]` subscripts raise `KeyError` when a rate is absent. -/
def calculate_cost (billing : Billing) (input_tokens output_tokens : ℕ) :
    Except PyErr ℚ :=
  match billing.input_per_mtok with
  | none => .error (.otherError "KeyError: input_per_mtok")
  | some rate_in =>
    match billing.output_per_mtok with
    | none => .error (.otherError "KeyError: output_per_mtok")
    | some rate_out =>
      let input_cost := (input_tokens * rate_in) / 1000
      let output_cost := (output_tokens * rate_out) / 1000
      .ok (pyRoundTo 6 (input_cost + output_cost))

end ClaudeProvider

namespace ChatGPTProvider

/-- `ChatGPTProvider.calculate_cost` (chatgpt_provider.py lines 76-95):
same formula and scale factor as the Claude variant. -/
def calculate_cost (billing : Billing) (input_tokens output_tokens : ℕ) :
    Except PyErr ℚ :=
  match billing.input_per_mtok with
  | none => .error (.otherError "KeyError: input_per_mtok")
  | some rate_in =>
    match billing.output_per_mtok with
    | none => .error (.otherError "KeyError: output_per_mtok")
    | some rate_out =>
      let input_cost := (input_tokens * rate_in) / 1000
      let output_cost := (output_tokens * rate_out) / 1000
      .ok (pyRoundTo 6 (input_cost + output_cost))

end ChatGPTProvider

def grokNotImplementedMsg : String :=
  "Grok provider is scaffolded but not fully implemented. Update this once xAI releases official Python library with documented API."

namespace GrokProvider

/-- `GrokProvider.calculate_cost` (grok_provider.py lines 62-80): reads the
rates with `.get(..., default)`, so missing fields fall back to the
placeholder pricing 0.002 / 0.01 instead of raising. -/
def calculate_cost (billing : Billing) (input_tokens output_tokens : ℕ) : ℚ :=
  let input_cost := (input_tokens * (billing.input_per_mtok.getD (2/1000))) / 1000
  let output_cost := (output_tokens * (billing.output_per_mtok.getD (1/100))) / 1000
  pyRoundTo 6 (input_cost + output_cost)

end GrokProvider

/-- One `provider.call(...)` invocation (the body of each provider's
`call`).  `GrokProvider.call` (grok_provider.py lines 41-60)
unconditionally raises `NotImplementedError`; the Claude and ChatGPT
variants forward the network outcome, compute the cost from their billing
config and stamp their own hard-coded `provider` field. -/
def providerNetworkCall (env : Env) (kind : ProviderKind)
    (pcfg : ProviderConfig) (attempt : ℕ) : Except PyErr APIResponse :=
  match kind with
  | .grok => .error (.notImplementedError grokNotImplementedMsg)
  | .claude =>
    match env.oracle "claude" attempt with
    | .error e => .error e
    | .ok u =>
      match pcfg.billing with
      | none => .error (.otherError "KeyError: billing")
      | some b =>
        match ClaudeProvider.calculate_cost b u.input_tokens u.output_tokens with
        | .error e => .error e
        | .ok cost =>
          .ok { content := u.content, model := pcfg.model,
                input_tokens := u.input_tokens, output_tokens := u.output_tokens,
                cost_usd := cost, provider := "claude" }
  | .chatgpt =>
    match env.oracle "chatgpt" attempt with
    | .error e => .error e
    | .ok u =>
      match pcfg.billing with
      | none => .error (.otherError "KeyError: billing")
      | some b =>
        match ChatGPTProvider.calculate_cost b u.input_tokens u.output_tokens with
        | .error e => .error e
        | .ok cost =>
          .ok { content := u.content, model := pcfg.model,
                input_tokens := u.input_tokens, output_tokens := u.output_tokens,
                cost_usd := cost, provider := "chatgpt" }

/-- Result of one provider attempt: outcome, the backoff sleeps performed
(in seconds) and the number of upstream invocations consumed. -/
structure AttemptResult where
  res : Except PyErr APIResponse
  sleeps : List ℚ
  attempts : ℕ
deriving Repr

namespace APIClient

/-- Recursive core of `APIClient._call_with_retries` (api_client.py lines
176-203), fuelled by the number of loop iterations left.  A failed attempt
with iterations remaining sleeps `backoff ^ attempt`; the final failure
re-raises.  (The `0` fuel case models Python's fall-through `return None`;
it is unreachable because every call site passes `max_attempts = 3`.) -/
def call_with_retries_go (backoff : ℚ) (provCall : ℕ → Except PyErr APIResponse) :
    ℕ → ℕ → AttemptResult
  | _, 0 => { res := .error (.otherError "retry loop made no attempt"), sleeps := [], attempts := 0 }
  | attempt, remaining + 1 =>
    match provCall attempt with
    | .ok r => { res := .ok r, sleeps := [], attempts := 1 }
    | .error e =>
      if remaining = 0 then
        { res := .error e, sleeps := [], attempts := 1 }
      else
        let rest := call_with_retries_go backoff provCall (attempt + 1) remaining
        { res := rest.res, sleeps := backoff ^ attempt :: rest.sleeps,
          attempts := rest.attempts + 1 }

/-- `APIClient._call_with_retries` with its default 3-attempt ceiling. -/
def call_with_retries (backoff : ℚ) (provCall : ℕ → Except PyErr APIResponse)
    (max_attempts : ℕ := 3) : AttemptResult :=
  call_with_retries_go backoff provCall 0 max_attempts

end APIClient

/-- Observable outcome of one `APIClient.call` invocation: the returned
value or raised exception, the state of the usage-log file afterwards, the
entries appended to it, the backoff sleeps performed and one element per
upstream provider invocation (in order). -/
structure CallTrace where
  result : Except PyErr APIResponse
  finalFile : LogFile
  appended : List Entry
  sleeps : List ℚ
  network_attempts : List String
deriving Repr

namespace APIClient

def dailyLimitMsg (agent_name : String) (requests_today limit : ℕ) : String :=
  s!"Daily request limit exceeded for {agent_name} ({requests_today} of {limit} requests today)"

def costLimitMsg : String :=
  "Monthly cost limit exceeded. Increase hard_limit_dollars in agency-config.json"

def providerNotInConfigMsg (provider_name : String) : String :=
  s!"Provider {provider_name} not in config"

def allProvidersFailedMsg (lastMsg : String) : String :=
  s!"All providers failed. Last error: {lastMsg}"

/-- Steps a–c of one iteration of the provider loop in `APIClient.call`
(api_client.py lines 123-133): look the provider up in the raw config
(exact name, no lowercasing), resolve its credential, construct it through
the factory. -/
def resolveProvider (cfg : AgencyConfig) (env : Env) (provider_name : String) :
    Except PyErr (ProviderKind × ProviderConfig) :=
  match lookupA cfg.providers provider_name with
  | none => .error (.configError (providerNotInConfigMsg provider_name))
  | some provider_config =>
    match CredentialsManager.get cfg env.envVars provider_name with
    | .error e => .error e
    | .ok _api_key =>
      match ProviderFactory.create env provider_name provider_config with
      | .error e => .error e
      | .ok kind => .ok (kind, provider_config)

/-- Steps a–d of one iteration of the provider loop: resolution followed by
the retry loop (api_client.py line 136).  Resolution failures consume no
upstream invocation and perform no sleep. -/
def resolveAndCall (cfg : AgencyConfig) (env : Env) (provider_name : String) :
    AttemptResult :=
  match resolveProvider cfg env provider_name with
  | .error e => { res := .error e, sleeps := [], attempts := 0 }
  | .ok (kind, provider_config) =>
    call_with_retries (cfg.api.retry_backoff_base.getD 2)
      (providerNetworkCall env kind provider_config) 3

/-- Last element of `providers_to_try` (Python `providers_to_try[-1]`),
written as a total function on the nonempty list `head :: tail`. -/
def lastName (x : String) : List String → String
  | [] => x
  | y :: ys => lastName y ys

/-- The `for provider_name in providers_to_try` loop of `APIClient.call`
(api_client.py lines 121-174).  Any `ValueError` (config, credential —
and, via the blanket `except Exception` inside the retry loop, a
`ValueError` escaping the provider itself) re-raises immediately; any
other exception advances to the next provider unless the current name
equals the last element of the list, in which case a `failure` entry is
logged and `AllProvidersFailed` is raised.  `accSleeps`/`accTried`
accumulate the trace of completed iterations. -/
def tryProviders (cfg : AgencyConfig) (env : Env) (file : LogFile)
    (agent_name : String) (max_tokens : Option ℕ) (last : String) :
    List String → List ℚ → List String → CallTrace
  | [], accSleeps, accTried =>
    -- Python falls off the loop and returns None; unreachable because the
    -- list passed in is always nonempty.
    { result := .error (.otherError "no providers to try"), finalFile := file,
      appended := [], sleeps := accSleeps, network_attempts := accTried }
  | provider_name :: rest, accSleeps, accTried =>
    let att := resolveAndCall cfg env provider_name
    let accS := accSleeps ++ att.sleeps
    let accT := accTried ++ List.replicate att.attempts provider_name
    match att.res with
    | .ok response =>
      let entry := UsageTracker.mkLogEntry env.today agent_name provider_name
        response.input_tokens response.output_tokens response.cost_usd
        .success (some (.maxTokens max_tokens))
      { result := .ok response
        finalFile := UsageTracker.log_request env.today agent_name provider_name
          response.input_tokens response.output_tokens response.cost_usd
          .success (some (.maxTokens max_tokens)) file
        appended := [entry]
        sleeps := accS
        network_attempts := accT }
    | .error e =>
      if e.isValueError then
        { result := .error e, finalFile := file, appended := [],
          sleeps := accS, network_attempts := accT }
      else if provider_name = last then
        let entry := UsageTracker.mkLogEntry env.today agent_name provider_name
          0 0 0 .failure (some (.errMsg e.msg))
        { result := .error (.allProvidersFailed (allProvidersFailedMsg e.msg) e)
          finalFile := UsageTracker.log_request env.today agent_name provider_name
            0 0 0 .failure (some (.errMsg e.msg)) file
          appended := [entry]
          sleeps := accS
          network_attempts := accT }
      else
        tryProviders cfg env file agent_name max_tokens last rest accS accT

/-- `providers_to_try` (api_client.py lines 114-117): the preferred
provider passed at construction, else the agent's configured default
(`"claude"` when absent), followed by the configured fallbacks. -/
def providers_to_try (agent_config : AgentConfig)
    (preferred_provider : Option String) : List String :=
  (preferred_provider.getD (agent_config.provider.getD "claude")) ::
    agent_config.fallback_providers

/-- `APIClient.call` (api_client.py lines 75-174) for a client bound to
`agent_name` with `agent_config = config["agents"][agent_name]` (the
client constructor has already checked the agent exists).  `messages` and
`system_prompt` are absorbed into the network oracle. -/
def call (cfg : AgencyConfig) (agent_name : String) (agent_config : AgentConfig)
    (preferred_provider : Option String) (max_tokens : Option ℕ)
    (env : Env) (file : LogFile) : CallTrace :=
  let daily := UsageTracker.check_requests_per_agent_per_day cfg file env.today agent_name
  if ¬ daily.1 then
    { result := .error (.limitExceeded (dailyLimitMsg agent_name daily.2.1 daily.2.2))
      finalFile := file, appended := [], sleeps := [], network_attempts := [] }
  else
    let costchk := UsageTracker.check_cost_limit cfg file
    if ¬ costchk.1 then
      { result := .error (.limitExceeded costLimitMsg)
        finalFile := file, appended := [], sleeps := [], network_attempts := [] }
    else
      let ps := providers_to_try agent_config preferred_provider
      tryProviders cfg env file agent_name max_tokens
        (lastName (ps.headD "") ps.tail) ps [] []

end APIClient

/-! ## Spec-side definitions

Definitions below are written from the specification's wording, to be
compared against the source-translated functions above. -/

/-- Aggregate cost of the `status == success` entries of a log, as the
spec describes the running total used by the cost limit. -/
def sumSuccessCost : List Entry → ℚ
  | [] => 0
  | e :: rest => (if e.status = Status.success then e.cost_usd else 0) + sumSuccessCost rest

/-- Argument bundle of one `UsageTracker.log_request` invocation. -/
structure LogArgs where
  today : ℕ
  agent_name : String
  provider : String
  tokens_in : ℕ
  tokens_out : ℕ
  cost : ℚ
  status : Status
  metadata : Option Metadata

/-- One `log_request` call applied to a file state. -/
def applyLog (file : LogFile) (a : LogArgs) : LogFile :=
  UsageTracker.log_request a.today a.agent_name a.provider a.tokens_in
    a.tokens_out a.cost a.status a.metadata file

/-! ## Concurrency model for the usage log

`UsageTracker.log_request` is a full-read (`_load_logs`, line 74) followed
by a full-write (`json.dump`, lines 78-79) with no lock.  To reason about
parallel callers each writer is split into its two file operations; a
schedule is an arbitrary interleaving of `(writer index, operation)`
pairs.  A writer that has not yet read ignores a write step (its snapshot
does not exist yet), matching the data dependency in the source. -/

inductive LogOp where
  | readStep
  | writeStep
deriving DecidableEq, Repr

structure ConcState where
  file : LogFile
  pending : List (Option (List Entry))
deriving Repr

/-- One scheduler step: writer `a.1` performs its read (take a snapshot of
the whole file) or its write (store snapshot + own entry, overwriting the
file). -/
def concStep (entryOf : ℕ → Entry) (s : ConcState) (a : ℕ × LogOp) : ConcState :=
  match a.2 with
  | .readStep =>
    { s with pending := s.pending.set a.1 (some (UsageTracker.load_logs s.file)) }
  | .writeStep =>
    match s.pending.getD a.1 none with
    | none => s
    | some snapshot => { s with file := .valid (snapshot ++ [entryOf a.1]) }

def runSchedule (entryOf : ℕ → Entry) (s : ConcState)
    (sched : List (ℕ × LogOp)) : ConcState :=
  sched.foldl (concStep entryOf) s

/-! ## Concrete fixtures used by witnesses and counterexamples -/

def pcfgClaude : ProviderConfig :=
  { model := "claude-3-5-sonnet", enabled := true, max_tokens := some 4096,
    api_key_env_var := some "ANTHROPIC_API_KEY",
    billing := some ⟨some 3, some 15⟩ }

def pcfgClaudeDisabled : ProviderConfig := { pcfgClaude with enabled := false }

def pcfgChatGPT : ProviderConfig :=
  { model := "gpt-4-turbo", enabled := true, max_tokens := some 4096,
    api_key_env_var := some "OPENAI_API_KEY",
    billing := some ⟨some 10, some 30⟩ }

def pcfgGrok : ProviderConfig :=
  { model := "grok-beta", enabled := true, max_tokens := some 4096,
    api_key_env_var := some "GROK_API_KEY",
    billing := some ⟨some 5, some 15⟩ }

def agentCfg1 : AgentConfig :=
  { provider := some "claude", fallback_providers := ["chatgpt"],
    rate_limit := some ⟨some 100⟩ }

def cfgBase : AgencyConfig :=
  { providers := [("claude", pcfgClaude), ("chatgpt", pcfgChatGPT), ("grok", pcfgGrok)],
    agents := [("agent1", agentCfg1)],
    usage_control := some ⟨some ⟨some 100⟩⟩,
    api := ⟨some 2⟩ }

def cfgDisabled : AgencyConfig :=
  { cfgBase with
    providers := [("claude", pcfgClaudeDisabled), ("chatgpt", pcfgChatGPT)] }

def envVars1 : String → Option String := fun v =>
  if v = "ANTHROPIC_API_KEY" then some "sk-ant-test"
  else if v = "OPENAI_API_KEY" then some "sk-oa-test"
  else if v = "GROK_API_KEY" then some "xai-test"
  else none

/-- Network oracle under which Claude always fails with a transport error
and ChatGPT answers on its first attempt. -/
def oracleClaudeDown : String → ℕ → Except PyErr Usage := fun p _ =>
  if p = "chatgpt" then .ok ⟨"answer", 10, 5⟩
  else .error (.otherError "connection reset")

/-- Network oracle under which every provider answers immediately. -/
def oracleAllOk : String → ℕ → Except PyErr Usage := fun _ _ =>
  .ok ⟨"answer", 10, 5⟩

def envClaudeDown : Env :=
  { today := 0, envVars := envVars1, oracle := oracleClaudeDown,
    openaiInstalled := true, xaiGrokInstalled := true }

def envAllOk : Env :=
  { today := 0, envVars := envVars1, oracle := oracleAllOk,
    openaiInstalled := true, xaiGrokInstalled := true }

/-- Canonical (hard-coded) `provider` field each provider class stamps on
its responses. -/
def canonicalName : ProviderKind → String
  | .claude => "claude"
  | .chatgpt => "chatgpt"
  | .grok => "grok"

/-- A fixed response used to exercise the retry loop. -/
def respW : APIResponse :=
  { content := "answer", model := "m", input_tokens := 10, output_tokens := 5,
    cost_usd := 1, provider := "claude" }

/-- A provider call that fails once with a transport error and then
answers. -/
def pcW : ℕ → Except PyErr APIResponse := fun i =>
  if i = 0 then .error (.otherError "transient") else .ok respW

/-- A config whose only interesting field is a 10-dollar hard cost limit. -/
def cfgLimit10 : AgencyConfig :=
  { providers := [], agents := [], usage_control := some ⟨some ⟨some 10⟩⟩,
    api := ⟨some 2⟩ }

/-- A successful usage entry that cost exactly 10 dollars. -/
def entryCost10 : Entry :=
  { timestamp := 0, agent := "agent1", provider := "claude", tokens_in := 100,
    tokens_out := 50, total_tokens := 150, cost_usd := 10, status := .success,
    metadata := none }

/-- A config whose agent has a zero daily request allowance. -/
def cfgZeroDaily : AgencyConfig :=
  { providers := [("claude", pcfgClaude)],
    agents := [("agent1",
      { provider := some "claude", fallback_providers := [],
        rate_limit := some ⟨some 0⟩ })],
    usage_control := some ⟨some ⟨some 100⟩⟩,
    api := ⟨some 2⟩ }

/-! ## Helper lemmas -/

theorem ratFloor_eq_floor (q : ℚ) : ratFloor q = ⌊q⌋ := Rat.floor_def.symm

theorem pyRound_intCast (n : ℤ) : pyRound (n : ℚ) = n := by
  unfold pyRound
  norm_num [ratFloor_eq_floor, Int.floor_intCast]

/-- Rounding is the identity on values that already have at most `n`
decimal digits. -/
theorem pyRoundTo_eq_self (n : ℕ) (q : ℚ) (h : ∃ m : ℤ, q * 10 ^ n = m) :
    pyRoundTo n q = q := by
  obtain ⟨m, hm⟩ := h
  have hpow : (10 : ℚ) ^ n ≠ 0 := by positivity
  unfold pyRoundTo
  rw [hm, pyRound_intCast]
  field_simp at hm ⊢
  linarith [hm]

theorem pyLower_claude : pyLower "claude" = "claude" := rfl

theorem pyLower_chatgpt : pyLower "chatgpt" = "chatgpt" := rfl

theorem pyLower_grok : pyLower "grok" = "grok" := rfl

theorem summary_foldl_total_cost (l : List Entry) (s : UsageTracker.Summary) :
    (l.foldl UsageTracker.summaryStep s).total_cost = s.total_cost + sumSuccessCost l := by
  induction l generalizing s with
  | nil => simp [sumSuccessCost]
  | cons e rest ih =>
    rw [List.foldl_cons, ih, sumSuccessCost]
    by_cases h : e.status = Status.success
    · simp only [UsageTracker.summaryStep, h, if_pos, ne_eq, not_true_eq_false, if_false]
      ring
    · simp only [UsageTracker.summaryStep, ne_eq, h, not_false_eq_true, if_true, if_neg]
      ring

/-- The `total_cost` field of the summary is the aggregate cost of the
successful entries. -/
theorem get_usage_summary_total_cost (file : LogFile) :
    (UsageTracker.get_usage_summary file).total_cost =
      sumSuccessCost (UsageTracker.load_logs file) := by
  simp [UsageTracker.get_usage_summary, summary_foldl_total_cost]

/-- A successful retry loop forwards a response produced by some attempt
of the underlying provider call. -/
theorem call_with_retries_go_ok {b : ℚ} {pc : ℕ → Except PyErr APIResponse}
    {r : APIResponse} :
    ∀ {fuel attempt : ℕ},
      (APIClient.call_with_retries_go b pc attempt fuel).res = .ok r →
      ∃ i, pc i = .ok r := by
  intro fuel
  induction fuel with
  | zero => intro attempt h; simp [APIClient.call_with_retries_go] at h
  | succ n ih =>
    intro attempt h
    rw [APIClient.call_with_retries_go] at h
    cases hpc : pc attempt with
    | ok r' =>
      rw [hpc] at h
      simp only at h
      exact ⟨attempt, by rw [hpc, h]⟩
    | error e =>
      rw [hpc] at h
      by_cases hn : n = 0
      · subst hn; simp at h
      · simp only [hn, if_false, if_neg] at h
        exact ih h

/-- Any response a provider class returns carries that class's hard-coded
`provider` field. -/
theorem providerNetworkCall_ok_provider {env : Env} {kind : ProviderKind}
    {pcfg : ProviderConfig} {i : ℕ} {r : APIResponse} :
    providerNetworkCall env kind pcfg i = .ok r → r.provider = canonicalName kind := by
  intro h
  cases kind <;> rw [providerNetworkCall] at h
  case grok => simp at h
  case claude =>
    cases ho : env.oracle "claude" i with
    | error e => simp [ho] at h
    | ok u =>
      simp only [ho] at h
      cases hb : pcfg.billing with
      | none => simp [hb] at h
      | some b =>
        simp only [hb] at h
        cases hc : ClaudeProvider.calculate_cost b u.input_tokens u.output_tokens with
        | error e => simp [hc] at h
        | ok cost =>
          simp only [hc, Except.ok.injEq] at h
          rw [← h]
          rfl
  case chatgpt =>
    cases ho : env.oracle "chatgpt" i with
    | error e => simp [ho] at h
    | ok u =>
      simp only [ho] at h
      cases hb : pcfg.billing with
      | none => simp [hb] at h
      | some b =>
        simp only [hb] at h
        cases hc : ChatGPTProvider.calculate_cost b u.input_tokens u.output_tokens with
        | error e => simp [hc] at h
        | ok cost =>
          simp only [hc, Except.ok.injEq] at h
          rw [← h]
          rfl

/-- The factory only constructs the class registered under the lowercased
provider name. -/
theorem create_ok_name {env : Env} {p : String} {pcfg : ProviderConfig}
    {kind : ProviderKind} :
    ProviderFactory.create env p pcfg = .ok kind → pyLower p = canonicalName kind := by
  intro h
  rw [ProviderFactory.create] at h
  by_cases h1 : pyLower p = "claude" ∨ pyLower p = "chatgpt" ∨ pyLower p = "grok"
  · rw [if_pos h1] at h
    by_cases h2 : pcfg.enabled = true
    · simp only [h2, not_true_eq_false, if_false, if_neg] at h
      by_cases h3 : pyLower p = "claude"
      · rw [if_pos h3] at h
        simp only [Except.ok.injEq] at h
        rw [h3, ← h, canonicalName]
      · rw [if_neg h3] at h
        by_cases h4 : pyLower p = "chatgpt"
        · rw [if_pos h4] at h
          cases ho : env.openaiInstalled <;> rw [ho] at h <;> simp at h
          rw [h4, ← h, canonicalName]
        · rw [if_neg h4] at h
          cases hx : env.xaiGrokInstalled <;> rw [hx] at h <;> simp at h
          have h5 : pyLower p = "grok" := by tauto
          rw [h5, ← h, canonicalName]
    · simp only [Bool.not_eq_true] at h2
      simp [h2] at h
  · rw [if_neg h1] at h
    simp at h

/-- A provider attempt that returns a response returns one stamped with
the (lowercased) name the loop asked for. -/
theorem resolveAndCall_ok_provider {cfg : AgencyConfig} {env : Env} {p : String}
    {r : APIResponse} :
    (APIClient.resolveAndCall cfg env p).res = .ok r → r.provider = pyLower p := by
  intro h
  rw [APIClient.resolveAndCall] at h
  cases hrp : APIClient.resolveProvider cfg env p with
  | error e => rw [hrp] at h; simp at h
  | ok kp =>
    rw [hrp] at h
    obtain ⟨kind, pcfg⟩ := kp
    simp only at h
    obtain ⟨i, hi⟩ := call_with_retries_go_ok h
    rw [providerNetworkCall_ok_provider hi]
    rw [APIClient.resolveProvider] at hrp
    cases hl : lookupA cfg.providers p with
    | none => rw [hl] at hrp; simp at hrp
    | some pc =>
      simp only [hl] at hrp
      cases hc : CredentialsManager.get cfg env.envVars p with
      | error e2 => rw [hc] at hrp; simp at hrp
      | ok key =>
        simp only [hc] at hrp
        cases hf : ProviderFactory.create env p pc with
        | error e3 => rw [hf] at hrp; simp at hrp
        | ok kind2 =>
          simp only [hf, Except.ok.injEq, Prod.mk.injEq] at hrp
          rw [hrp.1] at hf
          exact (create_ok_name hf).symm

/-! ## Claims -/

/-- C3: for every provider variant and all non-negative integer token
counts, `calculate_cost` equals
`tokens * rate_per_mtok / 1000000 * 1000` for each direction (the per
mille-of-million scale written in the source as `/ 1000`), with an
identical scale factor across the Claude, ChatGPT and Grok variants; in
particular the cost of 1000 input and 500 output tokens under billing
rates 3 and 15 is 10.5.  The exact-formula part assumes the configured
rates carry at most three decimal digits (any coarser granularity, e.g.
whole dollars or tenths of cents per MTok, qualifies), which makes the
source's `round(…, 6)` the identity. -/
theorem claim_C3_cost_formula :
    (∀ (b : Billing) (tin tout : ℕ),
        ClaudeProvider.calculate_cost b tin tout = ChatGPTProvider.calculate_cost b tin tout)
    ∧ (∀ (bi bo : ℚ) (tin tout : ℕ),
        ClaudeProvider.calculate_cost ⟨some bi, some bo⟩ tin tout =
          .ok (GrokProvider.calculate_cost ⟨some bi, some bo⟩ tin tout))
    ∧ (∀ (bi bo : ℚ) (tin tout : ℕ),
        (∃ mi : ℤ, bi * 1000 = mi) → (∃ mo : ℤ, bo * 1000 = mo) →
        ClaudeProvider.calculate_cost ⟨some bi, some bo⟩ tin tout =
          .ok ((tin * bi) / 1000000 * 1000 + (tout * bo) / 1000000 * 1000))
    ∧ ClaudeProvider.calculate_cost ⟨some 3, some 15⟩ 1000 500 = .ok (21/2) := by
  refine ⟨fun b tin tout => rfl, fun bi bo tin tout => ?_, ?_, ?_⟩
  · simp [ClaudeProvider.calculate_cost, GrokProvider.calculate_cost]
  · rintro bi bo tin tout ⟨mi, hmi⟩ ⟨mo, hmo⟩
    simp only [ClaudeProvider.calculate_cost, Except.ok.injEq]
    rw [pyRoundTo_eq_self]
    · ring
    · refine ⟨(tin : ℤ) * mi + (tout : ℤ) * mo, ?_⟩
      push_cast
      rw [← hmi, ← hmo]
      ring
  · norm_num [ClaudeProvider.calculate_cost, pyRoundTo, pyRound, ratFloor_eq_floor]

/-- Witness for C3: the exact-formula part applied at
`inputTokens = 1000`, `outputTokens = 500`, billing rates 3 and 15. -/
theorem claim_C3_cost_formula_witness :
    ClaudeProvider.calculate_cost ⟨some 3, some 15⟩ 1000 500 =
      .ok ((1000 * 3) / 1000000 * 1000 + (500 * 15) / 1000000 * 1000) :=
  claim_C3_cost_formula.2.2.1 3 15 1000 500
    ⟨3000, by norm_num⟩ ⟨15000, by norm_num⟩

/-- C6: `check_cost_limit` reports within-limit exactly when the aggregate
cost of the successful entries is strictly below `hard_limit_dollars`
(default 100 when unconfigured); aggregate cost equal to the limit already
blocks. -/
theorem claim_C6_cost_limit_strict (cfg : AgencyConfig) (file : LogFile) :
    ((UsageTracker.check_cost_limit cfg file).1 = true ↔
      sumSuccessCost (UsageTracker.load_logs file) <
        ((cfg.usage_control.bind (·.cost_tracking)).bind (·.hard_limit_dollars)).getD 100)
    ∧ (sumSuccessCost (UsageTracker.load_logs file) =
        ((cfg.usage_control.bind (·.cost_tracking)).bind (·.hard_limit_dollars)).getD 100 →
      (UsageTracker.check_cost_limit cfg file).1 = false) := by
  constructor
  · simp [UsageTracker.check_cost_limit, get_usage_summary_total_cost]
  · intro h
    simp [UsageTracker.check_cost_limit, get_usage_summary_total_cost, h]

/-- Witness for C6: a log whose successful cost is exactly the configured
10-dollar limit is already out of limit. -/
theorem claim_C6_cost_limit_strict_witness :
    (UsageTracker.check_cost_limit cfgLimit10 (.valid [entryCost10])).1 = false :=
  (claim_C6_cost_limit_strict cfgLimit10 (.valid [entryCost10])).2
    (by norm_num [sumSuccessCost, entryCost10, cfgLimit10, UsageTracker.load_logs])

/-- C7: within one provider attempt the retry loop makes at most 3
invocations; after a failed invocation with attempts remaining it sleeps
`retry_backoff_base ^ attemptIndex` (index starting at 0, so the sleep
sequence is `b^0, b^1`), there is no sleep after the final attempt, and
when every attempt fails the last exception is the one that propagates. -/
theorem claim_C7_retry_backoff (b : ℚ) (pc : ℕ → Except PyErr APIResponse) :
    (∀ r, pc 0 = .ok r →
        APIClient.call_with_retries b pc 3 = { res := .ok r, sleeps := [], attempts := 1 })
    ∧ (∀ e0 r, pc 0 = .error e0 → pc 1 = .ok r →
        APIClient.call_with_retries b pc 3 =
          { res := .ok r, sleeps := [b ^ 0], attempts := 2 })
    ∧ (∀ e0 e1 r, pc 0 = .error e0 → pc 1 = .error e1 → pc 2 = .ok r →
        APIClient.call_with_retries b pc 3 =
          { res := .ok r, sleeps := [b ^ 0, b ^ 1], attempts := 3 })
    ∧ (∀ e0 e1 e2, pc 0 = .error e0 → pc 1 = .error e1 → pc 2 = .error e2 →
        APIClient.call_with_retries b pc 3 =
          { res := .error e2, sleeps := [b ^ 0, b ^ 1], attempts := 3 }) := by
  refine ⟨?_, ?_, ?_, ?_⟩ <;> intros <;>
    simp [APIClient.call_with_retries, APIClient.call_with_retries_go, *]

/-- Witness for C7: with backoff base 2 and a provider that fails once and
then answers, the loop returns the answer after one 1-second sleep and two
invocations. -/
theorem claim_C7_retry_backoff_witness :
    APIClient.call_with_retries 2 pcW 3 =
      { res := .ok respW, sleeps := [2 ^ 0], attempts := 2 } :=
  (claim_C7_retry_backoff 2 pcW).2.1 (.otherError "transient") respW rfl rfl

/-- C10: a missing, unreadable or invalid usage-log file is treated as an
empty log by every tracker query — the summary is all zeros, both limit
counters restart from zero — and the next `log_request` rewrites the file
as a fresh log holding only the new entry. -/
theorem claim_C10_corrupt_log_resets (cfg : AgencyConfig) (file : LogFile)
    (today : ℕ) (agent_name provider : String) (tin tout : ℕ) (cost : ℚ)
    (status : Status) (md : Option Metadata)
    (h : file = .missing ∨ file = .invalid) :
    UsageTracker.get_usage_summary file =
      { total_calls := 0, total_tokens := 0, total_cost := 0,
        by_provider := [], by_agent := [] }
    ∧ UsageTracker.check_cost_limit cfg file =
        (decide ((0 : ℚ) <
            ((cfg.usage_control.bind (·.cost_tracking)).bind (·.hard_limit_dollars)).getD 100),
          0,
          ((cfg.usage_control.bind (·.cost_tracking)).bind (·.hard_limit_dollars)).getD 100)
    ∧ UsageTracker.check_requests_per_agent_per_day cfg file today agent_name =
        (decide (0 <
            (((lookupA cfg.agents agent_name).bind (·.rate_limit)).bind (·.requests_per_day)).getD 100),
          0,
          (((lookupA cfg.agents agent_name).bind (·.rate_limit)).bind (·.requests_per_day)).getD 100)
    ∧ UsageTracker.log_request today agent_name provider tin tout cost status md file =
        .valid [UsageTracker.mkLogEntry today agent_name provider tin tout cost status md] := by
  rcases h with h | h <;> subst h <;>
    refine ⟨?_, ?_, ?_, ?_⟩ <;>
      simp [UsageTracker.get_usage_summary, UsageTracker.load_logs,
        UsageTracker.check_cost_limit, UsageTracker.check_requests_per_agent_per_day,
        UsageTracker.log_request]

/-- Witness for C10: with the 10-dollar-limit config and an unreadable
log file, the cost check restarts from zero dollars and logging one
request leaves exactly that one entry in the file. -/
theorem claim_C10_corrupt_log_resets_witness :
    UsageTracker.check_cost_limit cfgLimit10 .invalid = (true, 0, 10)
    ∧ UsageTracker.log_request 0 "agent1" "claude" 3 4 1 .success none .invalid =
        .valid [UsageTracker.mkLogEntry 0 "agent1" "claude" 3 4 1 .success none] := by
  have h := claim_C10_corrupt_log_resets cfgLimit10 .invalid 0 "agent1" "claude"
    3 4 1 .success none (Or.inr rfl)
  refine ⟨?_, h.2.2.2⟩
  rw [h.2.1]
  norm_num [cfgLimit10]

/-- Counterexample to C9: two `log_request` callers racing on the same
file.  Both read the (empty) log before either writes; each then writes
back its own snapshot plus its own entry.  The second write overwrites the
first, so the log ends with one entry where the claim demands exactly two
— the unsynchronized full-read/append/full-write cycle loses an entry. -/
theorem claim_C9_counterexample :
    (UsageTracker.load_logs (runSchedule
        (fun i => UsageTracker.mkLogEntry 0 (if i = 0 then "agent1" else "agent2")
          "claude" 1 1 0 .success none)
        { file := .valid [], pending := [none, none] }
        [(0, .readStep), (1, .readStep), (0, .writeStep), (1, .writeStep)]).file).length = 1
    ∧ (UsageTracker.load_logs (runSchedule
        (fun i => UsageTracker.mkLogEntry 0 (if i = 0 then "agent1" else "agent2")
          "claude" 1 1 0 .success none)
        { file := .valid [], pending := [none, none] }
        [(0, .readStep), (1, .readStep), (0, .writeStep), (1, .writeStep)]).file).length ≠ 2 := by
  constructor <;> decide

/-- C9 amended: when the N `log_request` calls are serialized (each call's
read-modify-write completes before the next begins) the log gains exactly
N entries; under genuinely concurrent interleavings the unsynchronized
cycle can lose entries, as the counterexample schedule shows. -/
theorem claim_C9_amended_serialized_appends (calls : List LogArgs) (file : LogFile) :
    (UsageTracker.load_logs (calls.foldl applyLog file)).length =
      (UsageTracker.load_logs file).length + calls.length := by
  induction calls generalizing file with
  | nil => simp
  | cons a rest ih =>
    rw [List.foldl_cons, ih]
    simp [applyLog, UsageTracker.log_request, UsageTracker.load_logs]
    omega

/-- C8 amended: the scaffolded Grok provider does fail with a distinguished
NotImplementedError (not a generic transport error and not a ValueError),
but the orchestrator's retry loop treats it like any other exception: it
still consumes the full 3-attempt ceiling and sleeps `b^0` and `b^1`
between the doomed attempts. -/
theorem claim_C8_amended_not_implemented_still_retried (b : ℚ) (env : Env)
    (pcfg : ProviderConfig) (attempt : ℕ) :
    providerNetworkCall env .grok pcfg attempt =
      .error (.notImplementedError grokNotImplementedMsg)
    ∧ (PyErr.notImplementedError grokNotImplementedMsg).isNotImplemented = true
    ∧ (PyErr.notImplementedError grokNotImplementedMsg).isValueError = false
    ∧ APIClient.call_with_retries b (providerNetworkCall env .grok pcfg) 3 =
        { res := .error (.notImplementedError grokNotImplementedMsg),
          sleeps := [b ^ 0, b ^ 1], attempts := 3 } := by
  refine ⟨rfl, rfl, rfl, ?_⟩
  simp [APIClient.call_with_retries, APIClient.call_with_retries_go, providerNetworkCall]

/-- Counterexample to C8: the retry loop does spend backoff attempts on the
Grok call that can never succeed — with backoff base 2 it performs the
non-empty sleep sequence and all 3 attempts, refuting "the orchestrator's
retry logic does not spend backoff attempts on such a call". -/
theorem claim_C8_counterexample :
    (APIClient.call_with_retries 2 (providerNetworkCall envAllOk .grok pcfgGrok) 3).sleeps ≠ []
    ∧ (APIClient.call_with_retries 2 (providerNetworkCall envAllOk .grok pcfgGrok) 3).attempts = 3 := by
  constructor <;> decide

/-- C1: a ValueError raised while resolving a provider (name missing from
the providers map, credential failure, unknown or disabled provider in the
factory) aborts the whole call at that point: the error surfaces as the
call's result, no usage-log entry is appended, the file is untouched, and
no further sleep or upstream invocation happens (the trace keeps exactly
the accumulators of the already-completed iterations).  In particular a
disabled primary provider fails the very first attempt with the factory's
ConfigError and an otherwise empty trace: no fallback, no retry, no log
entry. -/
theorem claim_C1_config_errors_abort :
    (∀ (cfg : AgencyConfig) (env : Env) (file : LogFile) (agent_name : String)
        (mt : Option ℕ) (last p : String) (rest : List String)
        (accS : List ℚ) (accT : List String) (e : PyErr),
        APIClient.resolveProvider cfg env p = .error e → e.isValueError = true →
        APIClient.tryProviders cfg env file agent_name mt last (p :: rest) accS accT =
          { result := .error e, finalFile := file, appended := [],
            sleeps := accS, network_attempts := accT })
    ∧ (∀ (cfg : AgencyConfig) (agent_name : String) (ac : AgentConfig)
        (pref : Option String) (mt : Option ℕ) (env : Env) (file : LogFile)
        (pname : String) (pcfg : ProviderConfig) (key : String),
        pname = pref.getD (ac.provider.getD "claude") →
        (UsageTracker.check_requests_per_agent_per_day cfg file env.today agent_name).1 = true →
        (UsageTracker.check_cost_limit cfg file).1 = true →
        lookupA cfg.providers pname = some pcfg →
        CredentialsManager.get cfg env.envVars pname = .ok key →
        (pyLower pname = "claude" ∨ pyLower pname = "chatgpt" ∨ pyLower pname = "grok") →
        pcfg.enabled = false →
        APIClient.call cfg agent_name ac pref mt env file =
          { result := .error (.configError (notEnabledMsg pname)), finalFile := file,
            appended := [], sleeps := [], network_attempts := [] }) := by
  have loopAbort : ∀ (cfg : AgencyConfig) (env : Env) (file : LogFile)
      (agent_name : String) (mt : Option ℕ) (last p : String) (rest : List String)
      (accS : List ℚ) (accT : List String) (e : PyErr),
      APIClient.resolveProvider cfg env p = .error e → e.isValueError = true →
      APIClient.tryProviders cfg env file agent_name mt last (p :: rest) accS accT =
        { result := .error e, finalFile := file, appended := [],
          sleeps := accS, network_attempts := accT } := by
    intro cfg env file agent_name mt last p rest accS accT e hres hval
    have hatt : APIClient.resolveAndCall cfg env p =
        { res := .error e, sleeps := [], attempts := 0 } := by
      simp [APIClient.resolveAndCall, hres]
    rw [APIClient.tryProviders, hatt]
    simp [hval]
  refine ⟨loopAbort, ?_⟩
  intro cfg agent_name ac pref mt env file pname pcfg key hp hd hc hl hcred hk hdis
  have hrp : APIClient.resolveProvider cfg env pname =
      .error (.configError (notEnabledMsg pname)) := by
    rw [APIClient.resolveProvider, hl]
    simp only [hcred]
    rw [ProviderFactory.create, if_pos hk]
    simp [hdis]
  rw [APIClient.call]
  simp only [hd, not_true_eq_false, if_false, if_neg, hc]
  rw [APIClient.providers_to_try, ← hp]
  exact loopAbort cfg env file agent_name mt _ pname ac.fallback_providers [] []
    (.configError (notEnabledMsg pname)) hrp rfl

/-- Witness for C1: in a config whose only change is `enabled: false` on
the agent's primary provider (claude), the call surfaces the factory's
not-enabled ConfigError with an empty trace: no fallback to the still
enabled chatgpt, no sleep, no upstream attempt, no log entry. -/
theorem claim_C1_config_errors_abort_witness :
    APIClient.call cfgDisabled "agent1" agentCfg1 none none envAllOk (.valid []) =
      { result := .error (.configError (notEnabledMsg "claude")),
        finalFile := .valid [], appended := [], sleeps := [], network_attempts := [] } :=
  claim_C1_config_errors_abort.2 cfgDisabled "agent1" agentCfg1 none none envAllOk
    (.valid []) "claude" pcfgClaudeDisabled "sk-ant-test"
    (by decide) (by decide) (by decide) (by decide) (by decide)
    (Or.inl pyLower_claude) (by decide)

/-- C4: the daily-request check gates the call first and the cost check
second, both ahead of any provider work: a failing daily check yields the
daily LimitExceeded error (whatever the cost state) with an untouched file
and an empty trace, and a passing daily check with a failing cost check
yields the cost LimitExceeded error, equally with no provider resolved or
contacted, no sleep and no log entry. -/
theorem claim_C4_preflight_limits (cfg : AgencyConfig) (agent_name : String)
    (ac : AgentConfig) (pref : Option String) (mt : Option ℕ) (env : Env)
    (file : LogFile) :
    ((UsageTracker.check_requests_per_agent_per_day cfg file env.today agent_name).1 = false →
      APIClient.call cfg agent_name ac pref mt env file =
        { result := .error (.limitExceeded (APIClient.dailyLimitMsg agent_name
            (UsageTracker.check_requests_per_agent_per_day cfg file env.today agent_name).2.1
            (UsageTracker.check_requests_per_agent_per_day cfg file env.today agent_name).2.2)),
          finalFile := file, appended := [], sleeps := [], network_attempts := [] })
    ∧ ((UsageTracker.check_requests_per_agent_per_day cfg file env.today agent_name).1 = true →
      (UsageTracker.check_cost_limit cfg file).1 = false →
      APIClient.call cfg agent_name ac pref mt env file =
        { result := .error (.limitExceeded APIClient.costLimitMsg),
          finalFile := file, appended := [], sleeps := [], network_attempts := [] }) := by
  constructor
  · intro hd
    rw [APIClient.call]
    simp [hd]
  · intro hd hc
    rw [APIClient.call]
    simp [hd, hc]

/-- Witness for C4: an agent with a zero-requests-per-day allowance is
stopped by the daily check on an empty log; an agent whose successful
spend already equals the 10-dollar hard limit is stopped by the cost
check.  Both leave the file untouched and attempt no provider. -/
theorem claim_C4_preflight_limits_witness :
    APIClient.call cfgZeroDaily "agent1"
        { provider := some "claude", fallback_providers := [], rate_limit := some ⟨some 0⟩ }
        none none envAllOk (.valid []) =
      { result := .error (.limitExceeded (APIClient.dailyLimitMsg "agent1" 0 0)),
        finalFile := .valid [], appended := [], sleeps := [], network_attempts := [] }
    ∧ APIClient.call cfgLimit10 "agent1" agentCfg1 none none envAllOk (.valid [entryCost10]) =
      { result := .error (.limitExceeded APIClient.costLimitMsg),
        finalFile := .valid [entryCost10], appended := [], sleeps := [],
        network_attempts := [] } := by
  constructor
  · exact (claim_C4_preflight_limits cfgZeroDaily "agent1" _ none none envAllOk
      (.valid [])).1 (by decide)
  · exact (claim_C4_preflight_limits cfgLimit10 "agent1" agentCfg1 none none envAllOk
      (.valid [entryCost10])).2 (by decide)
      (by norm_num [UsageTracker.check_cost_limit, UsageTracker.get_usage_summary,
        UsageTracker.load_logs, UsageTracker.summaryStep, entryCost10, cfgLimit10])

/-- C5: providers are attempted in exactly the order
`[primary] + fallback_providers`, where the primary is the preferred
provider given at construction when present and otherwise the agent's
configured default; after the pre-flight checks pass, the call is exactly
the provider loop over that list; and at any point of the chain, the first
provider whose attempt returns a response terminates the loop at once with
that response — one success entry recording that provider, its tokens and
its (4-decimal rounded) cost is appended, nothing later in the list is
consulted, and the response's `provider` field is the (lowercased) name of
that provider. -/
theorem claim_C5_provider_order_first_success :
    (∀ (ac : AgentConfig) (po : String),
        APIClient.providers_to_try ac (some po) = [po] ++ ac.fallback_providers)
    ∧ (∀ (ac : AgentConfig) (dp : String), ac.provider = some dp →
        APIClient.providers_to_try ac none = [dp] ++ ac.fallback_providers)
    ∧ (∀ (cfg : AgencyConfig) (agent_name : String) (ac : AgentConfig)
        (pref : Option String) (mt : Option ℕ) (env : Env) (file : LogFile),
        (UsageTracker.check_requests_per_agent_per_day cfg file env.today agent_name).1 = true →
        (UsageTracker.check_cost_limit cfg file).1 = true →
        APIClient.call cfg agent_name ac pref mt env file =
          APIClient.tryProviders cfg env file agent_name mt
            (APIClient.lastName ((APIClient.providers_to_try ac pref).headD "")
              (APIClient.providers_to_try ac pref).tail)
            (APIClient.providers_to_try ac pref) [] [])
    ∧ (∀ (cfg : AgencyConfig) (env : Env) (file : LogFile) (agent_name : String)
        (mt : Option ℕ) (last p : String) (rest : List String)
        (accS : List ℚ) (accT : List String) (r : APIResponse) (sl : List ℚ) (n : ℕ),
        APIClient.resolveAndCall cfg env p = { res := .ok r, sleeps := sl, attempts := n } →
        APIClient.tryProviders cfg env file agent_name mt last (p :: rest) accS accT =
          { result := .ok r
            finalFile := .valid (UsageTracker.load_logs file ++
              [UsageTracker.mkLogEntry env.today agent_name p r.input_tokens
                r.output_tokens r.cost_usd .success (some (.maxTokens mt))])
            appended := [UsageTracker.mkLogEntry env.today agent_name p r.input_tokens
              r.output_tokens r.cost_usd .success (some (.maxTokens mt))]
            sleeps := accS ++ sl
            network_attempts := accT ++ List.replicate n p }
          ∧ r.provider = pyLower p) := by
  refine ⟨fun ac po => rfl, fun ac dp h => by simp [APIClient.providers_to_try, h],
    ?_, ?_⟩
  · intro cfg agent_name ac pref mt env file hd hc
    rw [APIClient.call]
    simp [hd, hc]
  · intro cfg env file agent_name mt last p rest accS accT r sl n hres
    constructor
    · rw [APIClient.tryProviders, hres]
      simp [UsageTracker.log_request]
    · exact resolveAndCall_ok_provider (by rw [hres])

/-- Witness for C5: with every provider reachable, the loop over
`["claude", "chatgpt"]` stops at claude's first-attempt success — one
success entry for claude, no attempt on chatgpt, and the response's
provider field is "claude". -/
theorem claim_C5_provider_order_first_success_witness :
    APIClient.tryProviders cfgBase envAllOk (.valid []) "agent1" none "chatgpt"
        ["claude", "chatgpt"] [] [] =
      { result := .ok ⟨"answer", "claude-3-5-sonnet", 10, 5, 21/200, "claude"⟩,
        finalFile := .valid [UsageTracker.mkLogEntry 0 "agent1" "claude" 10 5
          (21/200) .success (some (.maxTokens none))],
        appended := [UsageTracker.mkLogEntry 0 "agent1" "claude" 10 5 (21/200)
          .success (some (.maxTokens none))],
        sleeps := [], network_attempts := ["claude"] } := by
  have hres : APIClient.resolveAndCall cfgBase envAllOk "claude" =
      { res := .ok ⟨"answer", "claude-3-5-sonnet", 10, 5, 21/200, "claude"⟩,
        sleeps := [], attempts := 1 } := by
    rw [APIClient.resolveAndCall]
    rw [show APIClient.resolveProvider cfgBase envAllOk "claude" =
      .ok (.claude, pcfgClaude) from by decide]
    simp only [APIClient.call_with_retries, APIClient.call_with_retries_go,
      providerNetworkCall, envAllOk, oracleAllOk, pcfgClaude,
      ClaudeProvider.calculate_cost]
    norm_num [pyRoundTo, pyRound, ratFloor_eq_floor, cfgBase]
  have h := (claim_C5_provider_order_first_success.2.2.2 cfgBase envAllOk (.valid [])
    "agent1" none "chatgpt" "claude" ["chatgpt"] [] []
    ⟨"answer", "claude-3-5-sonnet", 10, 5, 21/200, "claude"⟩ [] 1 hres).1
  simpa [UsageTracker.load_logs, envAllOk] using h

/-- Counterexample to C2: under a config where claude fails all three
attempts and the fallback chatgpt then succeeds, the call has tried two
providers (three upstream attempts on claude, one on chatgpt) yet appends
exactly one usage-log entry, not the two the claim demands for k = 2
providers tried. -/
theorem claim_C2_counterexample :
    (APIClient.call cfgBase "agent1" agentCfg1 none none envClaudeDown
        (.valid [])).network_attempts = ["claude", "claude", "claude", "chatgpt"]
    ∧ (APIClient.call cfgBase "agent1" agentCfg1 none none envClaudeDown
        (.valid [])).appended.length = 1
    ∧ (APIClient.call cfgBase "agent1" agentCfg1 none none envClaudeDown
        (.valid [])).appended.length ≠ 2 := by
  refine ⟨?_, ?_, ?_⟩ <;> decide

/-- C2 amended: one `APIClient.call` appends at most one usage-log entry —
the success entry of the provider that answered, or the failure entry
written when the chain is exhausted; providers abandoned mid-chain get no
entry.  Existing entries are never mutated or deleted: the final file
always holds exactly the previous entries followed by what this call
appended. -/
theorem claim_C2_amended_one_entry_per_call (cfg : AgencyConfig)
    (agent_name : String) (ac : AgentConfig) (pref : Option String)
    (mt : Option ℕ) (env : Env) (file : LogFile) :
    (APIClient.call cfg agent_name ac pref mt env file).appended.length ≤ 1
    ∧ UsageTracker.load_logs (APIClient.call cfg agent_name ac pref mt env file).finalFile =
        UsageTracker.load_logs file ++
          (APIClient.call cfg agent_name ac pref mt env file).appended := by
  have loop : ∀ (ps : List String) (last : String) (accS : List ℚ) (accT : List String),
      (APIClient.tryProviders cfg env file agent_name mt last ps accS accT).appended.length ≤ 1
      ∧ UsageTracker.load_logs
          (APIClient.tryProviders cfg env file agent_name mt last ps accS accT).finalFile =
        UsageTracker.load_logs file ++
          (APIClient.tryProviders cfg env file agent_name mt last ps accS accT).appended := by
    intro ps
    induction ps with
    | nil => intro last accS accT; simp [APIClient.tryProviders]
    | cons p rest ih =>
      intro last accS accT
      rw [APIClient.tryProviders]
      cases hres : (APIClient.resolveAndCall cfg env p).res with
      | ok r => simp [hres, UsageTracker.log_request, UsageTracker.load_logs]
      | error e =>
        by_cases hval : e.isValueError
        · simp [hres, hval]
        · by_cases hlast : p = last
          · simp [hres, hval, hlast, UsageTracker.log_request, UsageTracker.load_logs]
          · simpa [hres, hval, hlast] using ih last
              (accS ++ (APIClient.resolveAndCall cfg env p).sleeps)
              (accT ++ List.replicate (APIClient.resolveAndCall cfg env p).attempts p)
  by_cases hd : (UsageTracker.check_requests_per_agent_per_day cfg file env.today agent_name).1
  · by_cases hc : (UsageTracker.check_cost_limit cfg file).1
    · rw [APIClient.call]
      simp only [hd, hc, not_true_eq_false, if_false, if_neg]
      exact loop _ _ [] []
    · rw [APIClient.call]
      simp [hd, hc]
  · rw [APIClient.call]
    simp [hd]
